import Mathlib

/-!
# Verification of the terminal-chat P2P secure-session core

A shallow embedding, in Lean 4, of the cryptographic session layer of the
`terminal-chat` repository: the Dilithium/Kyber handshake
(`shared/src/crypto/handshake.rs`, `kyber_kex.rs`), session keys and the AEAD
message codec (`session.rs`, `message_crypto.rs`), the flood router
(`shared/src/p2p/routing.rs`), and the password-wrapped identity secret
(`identity-gen/src/crypto.rs`).

Machine integers (`u64`, `u8`) are embedded as `Nat`; where the Rust code
performs a subtraction that can underflow, the embedding uses `checkedSub`,
which returns `none` exactly where checked (debug-mode) Rust arithmetic
panics.  Fallible Rust functions returning `Result` are embedded as
`Except String`; a function whose Rust body can additionally panic is wrapped
in a further `Option` layer, `none` marking the panic.

External library primitives (the `sha2`, `aes_gcm`, `argon2`, `base64`,
`pqcrypto_dilithium` and `pqcrypto_kyber` crates, and `serde_json`) are not
code of this repository.  SHA-256 is implemented in full (FIPS 180-4), since
several claims compare concrete digests.  The other primitives are embedded as
executable models of the contract the repository relies on (stated in each doc
comment): key-generation/sign/verify and encapsulate/decapsulate round-trip,
AEAD encrypt/decrypt round-trip with authentication, deterministic KDF,
injective separator-free text encoding, and injective serialization with an
exact inverse.  All sizes and length checks use the real parameter sets
(Dilithium2, Kyber-768, AES-256-GCM).
-/

namespace TerminalChat

/-! ## Bytes and 32-bit words -/

/-- Truncate to a 32-bit word, as every SHA-256 operation does. -/
def w32 (n : Nat) : Nat := n % 4294967296

/-- Right-rotation of a 32-bit word. -/
def rotr32 (x n : Nat) : Nat := w32 ((x >>> n) ||| (x <<< (32 - n)))

/-- Little-endian base-256 rendering of `n` on `len` bytes, the layout
`u64::to_le_bytes` and the fixed-size key encodings use. -/
def natToBytes (n len : Nat) : List Nat :=
  match len with
  | 0 => []
  | l + 1 => n % 256 :: natToBytes (n / 256) l

/-- Read a little-endian byte string back as a number. -/
def bytesToNat (l : List Nat) : Nat :=
  l.foldr (fun b acc => b % 256 + 256 * acc) 0

/-- UTF-8 bytes of a string; every string the code hashes or frames is ASCII,
where the code points are the bytes. -/
def strBytes (s : String) : List Nat := s.data.map Char.toNat

/-- Rust `u64` checked subtraction: `none` exactly where `a - b` underflows
and a debug build panics. -/
def checkedSub (a b : Nat) : Option Nat :=
  if b ≤ a then some (a - b) else none

/-! ## SHA-256 (FIPS 180-4), executable

The `sha2` crate's `Sha256` as the repository calls it: `update` concatenates
input, `finalize` pads and digests.  Implemented over byte lists; inputs are
reduced `% 256` so the function is total on `Nat` "bytes". -/

/-- The 64 SHA-256 round constants, written in decimal. -/
def sha256K : List Nat :=
  [1116352408, 1899447441, 3049323471, 3921009573, 961987163,
   1508970993, 2453635748, 2870763221, 3624381080, 310598401,
   607225278, 1426881987, 1925078388, 2162078206, 2614888103,
   3248222580, 3835390401, 4022224774, 264347078, 604807628,
   770255983, 1249150122, 1555081692, 1996064986, 2554220882,
   2821834349, 2952996808, 3210313671, 3336571891, 3584528711,
   113926993, 338241895, 666307205, 773529912, 1294757372,
   1396182291, 1695183700, 1986661051, 2177026350, 2456956037,
   2730485921, 2820302411, 3259730800, 3345764771, 3516065817,
   3600352804, 4094571909, 275423344, 430227734, 506948616,
   659060556, 883997877, 958139571, 1322822218, 1537002063,
   1747873779, 1955562222, 2024104815, 2227730452, 2361852424,
   2428436474, 2756734187, 3204031479, 3329325298]

/-- The eight SHA-256 initial hash words, written in decimal. -/
def sha256Init : List Nat :=
  [1779033703, 3144134277, 1013904242,
   2773480762, 1359893119, 2600822924,
   528734635, 1541459225]

def bigSigma0 (x : Nat) : Nat := rotr32 x 2 ^^^ rotr32 x 13 ^^^ rotr32 x 22
def bigSigma1 (x : Nat) : Nat := rotr32 x 6 ^^^ rotr32 x 11 ^^^ rotr32 x 25
def smallSigma0 (x : Nat) : Nat := rotr32 x 7 ^^^ rotr32 x 18 ^^^ (x >>> 3)
def smallSigma1 (x : Nat) : Nat := rotr32 x 17 ^^^ rotr32 x 19 ^^^ (x >>> 10)
def chF (x y z : Nat) : Nat := (x &&& y) ^^^ ((x ^^^ 4294967295) &&& z)
def majF (x y z : Nat) : Nat := (x &&& y) ^^^ (x &&& z) ^^^ (y &&& z)

/-- Merkle–Damgård padding: append `0x80`, zeros to 56 mod 64, then the
bit length as 8 big-endian bytes. -/
def sha256Pad (msg : List Nat) : List Nat :=
  let m := msg.map (· % 256)
  let len := m.length
  let zeros := (119 - len % 64) % 64
  m ++ [128] ++ List.replicate zeros 0 ++
    (List.range 8).map fun i => (8 * len) >>> (8 * (7 - i)) % 256

/-- Split a padded message into 64-byte blocks (fuel-indexed). -/
def chunksAux : Nat → List Nat → List (List Nat)
  | 0, _ => []
  | _ + 1, [] => []
  | fuel + 1, l => l.take 64 :: chunksAux fuel (l.drop 64)

def chunks64 (l : List Nat) : List (List Nat) := chunksAux (l.length / 64 + 1) l

/-- Big-endian 32-bit words of a block. -/
def toWords : List Nat → List Nat
  | b0 :: b1 :: b2 :: b3 :: rest =>
      (((b0 * 256 + b1) * 256 + b2) * 256 + b3) :: toWords rest
  | _ => []

/-- The 64-entry message schedule of one block. -/
def sha256Schedule (block : List Nat) : List Nat :=
  let w0 := (toWords block).toArray
  ((List.range 48).foldl (fun acc i =>
      let t := i + 16
      acc.push (w32 (smallSigma1 (acc.getD (t - 2) 0) + acc.getD (t - 7) 0 +
        smallSigma0 (acc.getD (t - 15) 0) + acc.getD (t - 16) 0))) w0).toList

/-- One SHA-256 round on the 8-word working state. -/
def sha256Round (s : List Nat) (wk : Nat × Nat) : List Nat :=
  match s with
  | [a, b, c, d, e, f, g, h] =>
      let t1 := w32 (h + bigSigma1 e + chF e f g + wk.2 + wk.1)
      let t2 := w32 (bigSigma0 a + majF a b c)
      [w32 (t1 + t2), a, b, c, w32 (d + t1), e, f, g]
  | other => other

/-- Compress one 64-byte block into the running hash state. -/
def sha256Compress (hs : List Nat) (block : List Nat) : List Nat :=
  let final := ((sha256Schedule block).zip sha256K).foldl sha256Round hs
  List.zipWith (fun a b => w32 (a + b)) hs final

/-- Big-endian bytes of one 32-bit word. -/
def wordBytes (h : Nat) : List Nat :=
  [h >>> 24 % 256, h >>> 16 % 256, h >>> 8 % 256, h % 256]

/-- SHA-256 digest of a byte string: 32 bytes. -/
def sha256 (msg : List Nat) : List Nat :=
  (((chunks64 (sha256Pad msg)).foldl sha256Compress sha256Init).map wordBytes).flatten

/-! ## Association lists

The Rust code keys its `HashMap`s by peer fingerprint.  A `HashMap` is
embedded as an association list: `insert` replaces, `lookup` finds the entry
for a key. -/

/-- `HashMap::insert`: the new binding shadows and removes any previous one. -/
def mapInsert {α : Type} (k : String) (v : α) (m : List (String × α)) : List (String × α) :=
  (k, v) :: m.filter fun p => p.1 ≠ k

/-! ## CRYSTALS-Dilithium (level 2) model

Model of the `pqcrypto_dilithium::dilithium2` API, from the contract the
repository relies on: fixed-size keys (public 1312, secret 2528 bytes),
`sign` producing a signed message (2420 signature bytes followed by the
message), and `open` recovering the message exactly from a signed message
produced under the matching keypair.  Keys carry the generation seed; byte
encodings are little-endian base 256. -/

def dilithium2PublicKeyBytes : Nat := 1312
def dilithium2SecretKeyBytes : Nat := 2528
def dilithium2SignatureBytes : Nat := 2420

structure DilithiumPublicKey where
  seed : Nat
  deriving DecidableEq

structure DilithiumSecretKey where
  seed : Nat
  deriving DecidableEq

def DilithiumPublicKey.asBytes (pk : DilithiumPublicKey) : List Nat :=
  natToBytes pk.seed dilithium2PublicKeyBytes

def DilithiumSecretKey.asBytes (sk : DilithiumSecretKey) : List Nat :=
  natToBytes sk.seed dilithium2SecretKeyBytes

/-- `dilithium2::PublicKey::from_bytes`: fails unless the length is exact. -/
def dilithiumPublicKeyFromBytes (b : List Nat) : Option DilithiumPublicKey :=
  if b.length = dilithium2PublicKeyBytes then some ⟨bytesToNat b⟩ else none

/-- `dilithium2::SecretKey::from_bytes`: fails unless the length is exact. -/
def dilithiumSecretKeyFromBytes (b : List Nat) : Option DilithiumSecretKey :=
  if b.length = dilithium2SecretKeyBytes then some ⟨bytesToNat b⟩ else none

/-- `dilithium2::keypair()`: matching public and secret key from one seed
(reduced so that the seed survives a byte-encoding round trip). -/
def dilithiumKeypairGen (seed : Nat) : DilithiumPublicKey × DilithiumSecretKey :=
  (⟨seed % 256 ^ dilithium2PublicKeyBytes⟩, ⟨seed % 256 ^ dilithium2PublicKeyBytes⟩)

/-- Model signature bytes: a 2420-byte MAC of the key seed and the message. -/
def dilithiumSigBytes (seed : Nat) (msg : List Nat) : List Nat :=
  (sha256 (natToBytes seed 32 ++ msg) ++ List.replicate dilithium2SignatureBytes 0).take
    dilithium2SignatureBytes

/-- `dilithium2::sign`: a signed message is the signature followed by the
message itself, as in the `pqcrypto` signed-message convention. -/
def dilithiumSign (sk : DilithiumSecretKey) (msg : List Nat) : List Nat :=
  dilithiumSigBytes sk.seed msg ++ msg

/-- `dilithium2::open`: succeeds with the embedded message exactly when the
leading signature bytes are the matching keypair's signature of it. -/
def dilithiumOpen (blob : List Nat) (pk : DilithiumPublicKey) : Option (List Nat) :=
  if dilithium2SignatureBytes ≤ blob.length ∧
      blob.take dilithium2SignatureBytes =
        dilithiumSigBytes pk.seed (blob.drop dilithium2SignatureBytes)
  then some (blob.drop dilithium2SignatureBytes)
  else none

/-! ## `shared/src/crypto/dilithium_ops.rs` -/

/-- `DilithiumKeypair` (shared crate): a loaded signing identity. -/
structure DilithiumKeypair where
  public_key : DilithiumPublicKey
  secret_key : DilithiumSecretKey

/-- `DilithiumKeypair::sign`. -/
def DilithiumKeypair.sign (kp : DilithiumKeypair) (data : List Nat) : List Nat :=
  dilithiumSign kp.secret_key data

/-- `DilithiumVerifier::verify` (`dilithium_ops.rs:60-78`): `Err` when the
public key cannot be parsed, `Ok(false)` when `open` fails, otherwise
`Ok(opened message == message)`.  `SignedMessage::from_bytes` is length-free
in `pqcrypto` and is modelled as total. -/
def DilithiumVerifier.verify (message signature public_key_bytes : List Nat) :
    Except String Bool :=
  match dilithiumPublicKeyFromBytes public_key_bytes with
  | none => .error ("Invalid Dilithium public key for verification")
  | some pk =>
    match dilithiumOpen signature pk with
    | some verified_message => .ok (verified_message = message)
    | none => .ok false

/-! ## `identity-gen/src/crypto.rs`: `KeyPair` -/

/-- `KeyPair` (identity-gen crate). -/
structure KeyPair where
  public_key : DilithiumPublicKey
  secret_key : DilithiumSecretKey

/-- `KeyPair::generate`, with the library's randomness as an explicit seed. -/
def KeyPair.generate (seed : Nat) : KeyPair :=
  ⟨(dilithiumKeypairGen seed).1, (dilithiumKeypairGen seed).2⟩

def KeyPair.public_key_bytes (kp : KeyPair) : List Nat := kp.public_key.asBytes

def KeyPair.secret_key_bytes (kp : KeyPair) : List Nat := kp.secret_key.asBytes

/-- `KeyPair::sign`. -/
def KeyPair.sign (kp : KeyPair) (message : List Nat) : List Nat :=
  dilithiumSign kp.secret_key message

/-- `KeyPair::verify` (`crypto.rs:40-47`): parses the key and the signed
message and returns whether `open` succeeds.  The `_message` argument is
ignored by the source. -/
def KeyPair.verify (_message signature public_key : List Nat) : Bool :=
  match dilithiumPublicKeyFromBytes public_key with
  | some pk => (dilithiumOpen signature pk).isSome
  | none => false

/-! ## CRYSTALS-Kyber-768 model

Model of `pqcrypto_kyber::kyber768` from the contract the repository uses:
fixed sizes (public key 1184, ciphertext 1088, shared secret 32 bytes), and
`decapsulate (encapsulate pk coin) sk` recovering the same shared secret for
a matching keypair.  Encapsulation randomness is the explicit `coin`. -/

def kyber768PublicKeyBytes : Nat := 1184
def kyber768CiphertextBytes : Nat := 1088

structure KyberPublicKey where
  seed : Nat
  deriving DecidableEq

structure KyberSecretKey where
  seed : Nat
  deriving DecidableEq

def KyberPublicKey.asBytes (pk : KyberPublicKey) : List Nat :=
  natToBytes pk.seed kyber768PublicKeyBytes

/-- `kyber768::PublicKey::from_bytes`: fails unless the length is exact. -/
def kyberPublicKeyFromBytes (b : List Nat) : Option KyberPublicKey :=
  if b.length = kyber768PublicKeyBytes then some ⟨bytesToNat b⟩ else none

/-- `kyber768::Ciphertext::from_bytes`: fails unless the length is exact. -/
def kyberCiphertextFromBytes (b : List Nat) : Option (List Nat) :=
  if b.length = kyber768CiphertextBytes then some b else none

/-- `kyber768::keypair()` from one seed. -/
def kyberKeypairGen (seed : Nat) : KyberPublicKey × KyberSecretKey :=
  (⟨seed % 256 ^ kyber768CiphertextBytes⟩, ⟨seed % 256 ^ kyber768CiphertextBytes⟩)

/-- `kyber768::encapsulate`: 32-byte shared secret and 1088-byte ciphertext. -/
def kyberEncapsulate (pk : KyberPublicKey) (coin : Nat) : List Nat × List Nat :=
  (sha256 (natToBytes pk.seed 32 ++ natToBytes coin 32),
   natToBytes coin kyber768CiphertextBytes)

/-- `kyber768::decapsulate`: recomputes the shared secret from the ciphertext
under the secret key. -/
def kyberDecapsulate (ct : List Nat) (sk : KyberSecretKey) : List Nat :=
  sha256 (natToBytes sk.seed 32 ++ natToBytes (bytesToNat ct) 32)

/-! ## AES-256-GCM model

Model of the `aes_gcm` crate's AEAD contract as the repository relies on it:
encryption of a plaintext under (key, 12-byte nonce) yields a ciphertext of
the same length followed by a 16-byte authentication tag; decryption checks
the tag and inverts the masking exactly, and fails on any tag mismatch or on
input shorter than a tag.  The mask and tag are derived from the key and
nonce by SHA-256 (a stand-in for the block cipher; no claim depends on the
cipher's internals, only on this interface). -/

def aeadKeystream (key nonce : List Nat) (len : Nat) : List Nat :=
  (List.range len).map fun i => (sha256 (key ++ nonce ++ natToBytes i 8)).headD 0

def maskBytes (pt ks : List Nat) : List Nat := List.zipWith (fun a b => a ^^^ b) pt ks

def aeadTag (key nonce ct : List Nat) : List Nat :=
  (sha256 (key ++ nonce ++ ct) ++ List.replicate 16 0).take 16

def aeadEncrypt (key nonce pt : List Nat) : List Nat :=
  let ct := maskBytes pt (aeadKeystream key nonce pt.length)
  ct ++ aeadTag key nonce ct

def aeadDecrypt (key nonce data : List Nat) : Option (List Nat) :=
  if data.length < 16 then none
  else
    let ct := data.take (data.length - 16)
    let tag := data.drop (data.length - 16)
    if tag = aeadTag key nonce ct then some (maskBytes ct (aeadKeystream key nonce ct.length))
    else none

/-! ## `shared/src/crypto/session.rs` -/

/-- `SessionKey`: an ephemeral AES-256-GCM key for one peer. -/
structure SessionKey where
  key : List Nat
  created_at : Nat
  peer_fingerprint : String
  deriving DecidableEq

namespace SessionKey

/-- `SessionKey::generate`, with the random key bytes and the clock explicit. -/
def generate (keyBytes : List Nat) (peer_fingerprint : String) (now : Nat) : SessionKey :=
  ⟨keyBytes, now, peer_fingerprint⟩

/-- `SessionKey::from_shared_secret` (`session.rs:42-64`): the key is the
first 32 bytes of SHA-256 of the shared secret followed by the context bytes
`"dpq-chat-session-key"`. -/
def from_shared_secret (shared_secret : List Nat) (peer_fingerprint : String) (now : Nat) :
    SessionKey :=
  ⟨(sha256 (shared_secret ++ strBytes ("dpq-chat-session-key"))).take 32, now, peer_fingerprint⟩

/-- `SessionKey::is_expired` (`session.rs:82-89`): `now - created_at > 3600`
on `u64`; `none` where the subtraction underflows (checked arithmetic
panics). -/
def is_expired (k : SessionKey) (now : Nat) : Option Bool :=
  (checkedSub now k.created_at).map fun age => decide (age > 3600)

/-- `SessionKey::encrypt` (`session.rs:92-107`): AEAD-encrypt under the key
with a fresh 12-byte nonce (explicit here), prepending the nonce.  The
library calls cannot fail in the model, matching the source where the only
error source is the AEAD backend. -/
def encrypt (k : SessionKey) (nonce plaintext : List Nat) : Except String (List Nat) :=
  .ok (nonce ++ aeadEncrypt k.key nonce plaintext)

/-- `SessionKey::decrypt` (`session.rs:110-127`): reject inputs shorter than
a nonce, split nonce and ciphertext at byte 12, AEAD-decrypt.  There is no
expiry check in the source. -/
def decrypt (k : SessionKey) (encrypted_data : List Nat) : Except String (List Nat) :=
  if encrypted_data.length < 12 then .error ("Invalid encrypted data: too short")
  else
    match aeadDecrypt k.key (encrypted_data.take 12) (encrypted_data.drop 12) with
    | some plaintext => .ok plaintext
    | none => .error ("Decryption failed")

end SessionKey

/-- `SessionManager`: session keys indexed by peer fingerprint. -/
structure SessionManager where
  sessions : List (String × SessionKey)

namespace SessionManager

def new : SessionManager := ⟨[]⟩

def add_session (m : SessionManager) (peer_fingerprint : String) (session_key : SessionKey) :
    SessionManager :=
  ⟨mapInsert peer_fingerprint session_key m.sessions⟩

def get_session (m : SessionManager) (peer_fingerprint : String) : Option SessionKey :=
  List.lookup peer_fingerprint m.sessions

def remove_session (m : SessionManager) (peer_fingerprint : String) :
    Option SessionKey × SessionManager :=
  (List.lookup peer_fingerprint m.sessions,
   ⟨m.sessions.filter fun p => p.1 ≠ peer_fingerprint⟩)

def has_session (m : SessionManager) (peer_fingerprint : String) : Bool :=
  (m.get_session peer_fingerprint).isSome

end SessionManager

/-! ## `shared/src/crypto/message_crypto.rs` -/

/-- `MessageType` (`message_crypto.rs:22-34`); strings are UTF-8 byte lists. -/
inductive MessageType
  | Text
  | File (filename : List Nat) (size : Nat)
  | System
  | Typing
  | Ack (message_id : Nat)
  deriving DecidableEq

/-- `PlainMessage` (`message_crypto.rs:37-47`). -/
structure PlainMessage where
  content : List Nat
  sender : List Nat
  timestamp : Nat
  message_type : MessageType
  deriving DecidableEq

/-- `EncryptedMessage` (`message_crypto.rs:7-19`). -/
structure EncryptedMessage where
  sender_fingerprint : String
  encrypted_content : List Nat
  timestamp : Nat
  message_type : MessageType
  sequence : Nat
  deriving DecidableEq

/-! Model of `serde_json::to_vec` / `from_slice` for `PlainMessage`: an
injective byte serialization with an exact parser, standing in for the JSON
encoding, whose bytes the repository never inspects.  Numbers are
unary-coded, byte strings length-prefixed; the parser consumes the whole
input. -/

def encodeNat : Nat → List Nat
  | 0 => [0]
  | n + 1 => 1 :: encodeNat n

def decodeNat : List Nat → Option (Nat × List Nat)
  | 0 :: rest => some (0, rest)
  | 1 :: rest => (decodeNat rest).map fun p => (p.1 + 1, p.2)
  | _ => none

def encodeBytes (bs : List Nat) : List Nat := encodeNat bs.length ++ bs

def decodeBytes (l : List Nat) : Option (List Nat × List Nat) :=
  match decodeNat l with
  | some (n, rest) => if n ≤ rest.length then some (rest.take n, rest.drop n) else none
  | none => none

def encodeMessageType : MessageType → List Nat
  | .Text => [0]
  | .File filename size => 1 :: (encodeBytes filename ++ encodeNat size)
  | .System => [2]
  | .Typing => [3]
  | .Ack message_id => 4 :: encodeNat message_id

def decodeMessageType : List Nat → Option (MessageType × List Nat)
  | 0 :: rest => some (.Text, rest)
  | 1 :: rest =>
    match decodeBytes rest with
    | some (filename, rest1) =>
      match decodeNat rest1 with
      | some (size, rest2) => some (.File filename size, rest2)
      | none => none
    | none => none
  | 2 :: rest => some (.System, rest)
  | 3 :: rest => some (.Typing, rest)
  | 4 :: rest => (decodeNat rest).map fun p => (.Ack p.1, p.2)
  | _ => none

def encodePlainMessage (m : PlainMessage) : List Nat :=
  encodeBytes m.content ++ encodeBytes m.sender ++ encodeNat m.timestamp ++
    encodeMessageType m.message_type

def decodePlainMessage (l : List Nat) : Option PlainMessage :=
  match decodeBytes l with
  | some (content, r1) =>
    match decodeBytes r1 with
    | some (sender, r2) =>
      match decodeNat r2 with
      | some (timestamp, r3) =>
        match decodeMessageType r3 with
        | some (message_type, r4) =>
          if r4 = [] then some ⟨content, sender, timestamp, message_type⟩ else none
        | none => none
      | none => none
    | none => none
  | none => none

namespace MessageCrypto

/-- `MessageCrypto::encrypt_message` (`message_crypto.rs:54-72`): serialize,
encrypt under the session key (nonce explicit), and stamp the envelope.  The
source stamps `sender_fingerprint` with `session_key.peer_fingerprint()`. -/
def encrypt_message (session_key : SessionKey) (message : PlainMessage) (sequence : Nat)
    (nonce : List Nat) : Except String EncryptedMessage :=
  (session_key.encrypt nonce (encodePlainMessage message)).map fun encrypted_content =>
    { sender_fingerprint := session_key.peer_fingerprint
      encrypted_content := encrypted_content
      timestamp := message.timestamp
      message_type := message.message_type
      sequence := sequence }

/-- `MessageCrypto::decrypt_message` (`message_crypto.rs:75-86`). -/
def decrypt_message (session_key : SessionKey) (encrypted_message : EncryptedMessage) :
    Except String PlainMessage :=
  match session_key.decrypt encrypted_message.encrypted_content with
  | .error e => .error e
  | .ok decrypted_bytes =>
    match decodePlainMessage decrypted_bytes with
    | some plain_message => .ok plain_message
    | none => .error ("Deserialization failed")

/-- `MessageCrypto::create_text_message`, clock explicit. -/
def create_text_message (sender content : List Nat) (now : Nat) : PlainMessage :=
  ⟨content, sender, now, .Text⟩

/-- `MessageCrypto::verify_message_integrity` (`message_crypto.rs:134-155`):
the age test subtracts on `u64` first; `none` where `now - timestamp`
underflows (checked arithmetic panics). -/
def verify_message_integrity (encrypted_message : EncryptedMessage) (expected_sender : String)
    (max_age_seconds now : Nat) : Option (Except String Unit) :=
  (checkedSub now encrypted_message.timestamp).map fun age =>
    if age > max_age_seconds then .error ("Message too old")
    else if encrypted_message.sender_fingerprint ≠ expected_sender then
      .error ("Sender fingerprint mismatch")
    else .ok ()

end MessageCrypto

/-- `MessageSequenceManager` (`message_crypto.rs:159-208`). -/
structure MessageSequenceManager where
  peer_sequences : List (String × Nat)
  our_sequence : Nat

namespace MessageSequenceManager

def new : MessageSequenceManager := ⟨[], 0⟩

/-- `next_sequence`: increment and return the outbound counter. -/
def next_sequence (m : MessageSequenceManager) : Nat × MessageSequenceManager :=
  (m.our_sequence + 1, { m with our_sequence := m.our_sequence + 1 })

/-- `validate_sequence` (`message_crypto.rs:183-202`): reject a sequence at
or below the recorded last-seen value, otherwise record it. -/
def validate_sequence (m : MessageSequenceManager) (peer_fingerprint : String)
    (sequence : Nat) : Except String MessageSequenceManager :=
  match List.lookup peer_fingerprint m.peer_sequences with
  | some last_sequence =>
    if sequence ≤ last_sequence then .error ("Duplicate or old message sequence")
    else .ok { m with peer_sequences := mapInsert peer_fingerprint sequence m.peer_sequences }
  | none =>
    .ok { m with peer_sequences := mapInsert peer_fingerprint sequence m.peer_sequences }

/-- `reset_peer_sequence`: forget the entry for a peer. -/
def reset_peer_sequence (m : MessageSequenceManager) (peer_fingerprint : String) :
    MessageSequenceManager :=
  { m with peer_sequences := m.peer_sequences.filter fun p => p.1 ≠ peer_fingerprint }

end MessageSequenceManager

/-! ## `shared/src/crypto/kyber_kex.rs` -/

/-- `KeyExchangeRole` (`kyber_kex.rs:22-28`). -/
inductive KeyExchangeRole
  | Initiator
  | Responder
  deriving DecidableEq

/-- The bytes `format!("{:?}", role)` feeds into the handshake hash. -/
def KeyExchangeRole.debugStr : KeyExchangeRole → String
  | .Initiator => "Initiator"
  | .Responder => "Responder"

/-- `KyberKeyExchange` (`kyber_kex.rs:9-19`). -/
structure KyberKeyExchange where
  public_key : List Nat
  ciphertext : Option (List Nat)
  timestamp : Nat
  role : KeyExchangeRole
  deriving DecidableEq

/-- `KyberKeyExchangeManager` (`kyber_kex.rs:31-36`). -/
structure KyberKeyExchangeManager where
  our_keypair : Option (KyberPublicKey × KyberSecretKey)
  shared_secret : Option (List Nat)

namespace KyberKeyExchangeManager

def new : KyberKeyExchangeManager := ⟨none, none⟩

/-- `derive_shared_secret` (`kyber_kex.rs:176-188`): SHA-256 over the Kyber
shared secret, the context bytes, and `"terminal-chat-kyber-kdf"`. -/
def derive_shared_secret (kyber_shared_secret : List Nat) (context : String) : List Nat :=
  sha256 (kyber_shared_secret ++ strBytes context ++ strBytes ("terminal-chat-kyber-kdf"))

/-- `initiate_key_exchange` (`kyber_kex.rs:57-78`), keypair randomness and
clock explicit. -/
def initiate_key_exchange (m : KyberKeyExchangeManager) (seed now : Nat) :
    KyberKeyExchange × KyberKeyExchangeManager :=
  let kp := kyberKeypairGen seed
  ({ public_key := kp.1.asBytes, ciphertext := none, timestamp := now,
     role := .Initiator },
   { m with our_keypair := some kp })

/-- `respond_to_key_exchange` (`kyber_kex.rs:81-120`), encapsulation
randomness and clock explicit. -/
def respond_to_key_exchange (m : KyberKeyExchangeManager) (initiator_data : KyberKeyExchange)
    (coin now : Nat) :
    Except String ((KyberKeyExchange × List Nat) × KyberKeyExchangeManager) :=
  if initiator_data.role ≠ .Initiator then .error ("Invalid key exchange role")
  else if initiator_data.ciphertext.isSome then .error ("Initiator should not have ciphertext")
  else
    match kyberPublicKeyFromBytes initiator_data.public_key with
    | none => .error ("Invalid Kyber public key")
    | some initiator_public_key =>
      let enc := kyberEncapsulate initiator_public_key coin
      let derived_secret := derive_shared_secret enc.1 ("kyber-session")
      .ok (({ public_key := [], ciphertext := some enc.2, timestamp := now,
              role := .Responder },
            derived_secret),
           { m with shared_secret := some derived_secret })

/-- `complete_key_exchange` (`kyber_kex.rs:123-156`). -/
def complete_key_exchange (m : KyberKeyExchangeManager) (responder_data : KyberKeyExchange) :
    Except String (List Nat × KyberKeyExchangeManager) :=
  if responder_data.role ≠ .Responder then .error ("Invalid key exchange role")
  else
    match responder_data.ciphertext with
    | none => .error ("Responder must have ciphertext")
    | some ciphertext_bytes =>
      match m.our_keypair with
      | none => .error ("No keypair available for decapsulation")
      | some kp =>
        match kyberCiphertextFromBytes ciphertext_bytes with
        | none => .error ("Invalid Kyber ciphertext")
        | some ciphertext =>
          let shared_secret := kyberDecapsulate ciphertext kp.2
          let derived_secret := derive_shared_secret shared_secret ("kyber-session")
          .ok (derived_secret, { m with shared_secret := some derived_secret })

/-- `verify_key_exchange` (`kyber_kex.rs:191-235`): the age test subtracts on
`u64` first — `none` where `now - timestamp` underflows (checked arithmetic
panics) — then role-dependent shape and exact-length checks. -/
def verify_key_exchange (data : KyberKeyExchange) (max_age_seconds now : Nat) :
    Option (Except String Unit) :=
  (checkedSub now data.timestamp).map fun age =>
    if age > max_age_seconds then .error ("Key exchange data too old")
    else
      match data.role with
      | .Initiator =>
        if data.public_key = [] then .error ("Initiator must have public key")
        else if data.ciphertext.isSome then .error ("Initiator should not have ciphertext")
        else if data.public_key.length ≠ kyber768PublicKeyBytes then
          .error ("Invalid Kyber public key length")
        else .ok ()
      | .Responder =>
        match data.ciphertext with
        | none => .error ("Responder must have ciphertext")
        | some ct =>
          if ct.length ≠ kyber768CiphertextBytes then .error ("Invalid Kyber ciphertext length")
          else .ok ()

end KyberKeyExchangeManager

/-! ## `shared/src/crypto/handshake.rs` -/

/-- `PeerInfo` (`handshake.rs:10-20`). -/
structure PeerInfo where
  username : String
  fingerprint : String
  public_key : List Nat
  timestamp : Nat
  deriving DecidableEq

/-- `HandshakeData` (`handshake.rs:23-33`). -/
structure HandshakeData where
  peer_info : PeerInfo
  kyber_exchange : KyberKeyExchange
  signature : List Nat
  protocol_version : String
  deriving DecidableEq

/-- `HandshakeState` (`handshake.rs:36-48`). -/
inductive HandshakeState
  | Initial
  | Initiated
  | Received
  | Completed
  | Failed (reason : String)
  deriving DecidableEq

/-- `HandshakeManager` (`handshake.rs:51-63`). -/
structure HandshakeManager where
  our_info : PeerInfo
  peer_states : List (String × HandshakeState)
  pending_handshakes : List (String × HandshakeData)
  kyber_managers : List (String × KyberKeyExchangeManager)
  dilithium_keypair : Option DilithiumKeypair

namespace HandshakeManager

/-- `HandshakeManager::new` (`handshake.rs:67-85`), clock explicit. -/
def new (username fingerprint : String) (public_key : List Nat) (now : Nat) :
    HandshakeManager :=
  { our_info := ⟨username, fingerprint, public_key, now⟩
    peer_states := []
    pending_handshakes := []
    kyber_managers := []
    dilithium_keypair := none }

/-- `create_signature_data` (`handshake.rs:247-271`): SHA-256 over the peer
info fields (timestamps as `u64::to_le_bytes`), the Kyber public key, the
ciphertext when present, the Kyber timestamp, and the debug-formatted role. -/
def create_signature_data (peer_info : PeerInfo) (kyber_exchange : KyberKeyExchange) :
    List Nat :=
  sha256 (strBytes peer_info.username ++ strBytes peer_info.fingerprint ++
    peer_info.public_key ++ natToBytes peer_info.timestamp 8 ++
    kyber_exchange.public_key ++
    (match kyber_exchange.ciphertext with
     | some ciphertext => ciphertext
     | none => []) ++
    natToBytes kyber_exchange.timestamp 8 ++ strBytes kyber_exchange.role.debugStr)

/-- `sign_handshake_data` (`handshake.rs:274-294`): Dilithium-sign when a
keypair is loaded, otherwise the documented placeholder hash. -/
def sign_handshake_data (m : HandshakeManager) (data : List Nat) : List Nat :=
  match m.dilithium_keypair with
  | some keypair => keypair.sign data
  | none =>
    sha256 (data ++ strBytes m.our_info.fingerprint ++ strBytes ("dpq-chat-dilithium-signature"))

/-- `initiate_handshake` (`handshake.rs:119-151`), Kyber randomness and clock
explicit.  Infallible in the model: the source's error sources are the
signing backend only. -/
def initiate_handshake (m : HandshakeManager) (peer_fingerprint : String) (kyberSeed now : Nat) :
    HandshakeData × HandshakeManager :=
  let kx := KyberKeyExchangeManager.new.initiate_key_exchange kyberSeed now
  let signature_data := create_signature_data m.our_info kx.1
  let signature := m.sign_handshake_data signature_data
  let handshake_data : HandshakeData :=
    { peer_info := m.our_info, kyber_exchange := kx.1, signature := signature,
      protocol_version := "dpq-chat-v2-kyber" }
  (handshake_data,
   { m with
       kyber_managers := mapInsert peer_fingerprint kx.2 m.kyber_managers
       peer_states := mapInsert peer_fingerprint .Initiated m.peer_states
       pending_handshakes := mapInsert peer_fingerprint handshake_data m.pending_handshakes })

/-- `verify_handshake` (`handshake.rs:297-333`): protocol version, Kyber
exchange checks with `max_age = 300`, non-empty signature, then Dilithium
verification — where `Ok(false)` is an error but a verifier `Err` (for
backward compatibility) is accepted. -/
def verify_handshake (_m : HandshakeManager) (handshake_data : HandshakeData) (now : Nat) :
    Option (Except String Unit) :=
  if handshake_data.protocol_version ≠ "dpq-chat-v2-kyber" then
    some (.error ("Unsupported protocol version"))
  else
    match KyberKeyExchangeManager.verify_key_exchange handshake_data.kyber_exchange 300 now with
    | none => none
    | some (.error e) => some (.error e)
    | some (.ok _) =>
      let signature_data := create_signature_data handshake_data.peer_info
        handshake_data.kyber_exchange
      if handshake_data.signature = [] then some (.error ("Empty signature"))
      else
        match DilithiumVerifier.verify signature_data handshake_data.signature
            handshake_data.peer_info.public_key with
        | .ok true => some (.ok ())
        | .ok false => some (.error ("Invalid Dilithium signature"))
        | .error _ => some (.ok ())

/-- `process_handshake` (`handshake.rs:154-216`), Kyber encapsulation
randomness and clock explicit: verify, then complete an initiated exchange
or respond to a fresh one, producing the session key (and the response
handshake in the responder case). -/
def process_handshake (m : HandshakeManager) (handshake_data : HandshakeData) (now coin : Nat) :
    Option (Except String ((SessionKey × Option HandshakeData) × HandshakeManager)) :=
  let peer_fingerprint := handshake_data.peer_info.fingerprint
  match m.verify_handshake handshake_data now with
  | none => none
  | some (.error e) => some (.error e)
  | some (.ok _) =>
    match List.lookup peer_fingerprint m.peer_states with
    | some .Initiated =>
      match List.lookup peer_fingerprint m.kyber_managers with
      | none => some (.error ("No Kyber manager found for initiated handshake"))
      | some kyber_manager =>
        match kyber_manager.complete_key_exchange handshake_data.kyber_exchange with
        | .error e => some (.error e)
        | .ok (shared_secret, km) =>
          let session_key := SessionKey.from_shared_secret shared_secret peer_fingerprint now
          some (.ok ((session_key, none),
            { m with
                kyber_managers := mapInsert peer_fingerprint km m.kyber_managers
                peer_states := mapInsert peer_fingerprint .Completed m.peer_states
                pending_handshakes :=
                  m.pending_handshakes.filter fun p => p.1 ≠ peer_fingerprint }))
    | _ =>
      match KyberKeyExchangeManager.new.respond_to_key_exchange
          handshake_data.kyber_exchange coin now with
      | .error e => some (.error e)
      | .ok ((response_kyber, shared_secret), km) =>
        let signature_data := create_signature_data m.our_info response_kyber
        let signature := m.sign_handshake_data signature_data
        let response_handshake : HandshakeData :=
          { peer_info := m.our_info, kyber_exchange := response_kyber, signature := signature,
            protocol_version := "dpq-chat-v2-kyber" }
        let session_key := SessionKey.from_shared_secret shared_secret peer_fingerprint now
        some (.ok ((session_key, some response_handshake),
          { m with
              kyber_managers := mapInsert peer_fingerprint km m.kyber_managers
              peer_states := mapInsert peer_fingerprint .Completed m.peer_states
              pending_handshakes :=
                m.pending_handshakes.filter fun p => p.1 ≠ peer_fingerprint }))

end HandshakeManager

/-! ## `shared/src/p2p/routing.rs` and `shared/src/message/mod.rs` -/

/-- `PeerInfo` of the P2P message module (`message/mod.rs:50-56`); socket
addresses are kept as their display strings. -/
structure P2PPeerInfo where
  peer_id : String
  addr : String
  username : String
  last_seen : Nat
  deriving DecidableEq

/-- `P2PMessage` (`message/mod.rs:7-47`). -/
inductive P2PMessage
  | PeerAnnounce (peer_id : String) (listen_addr : String) (username : String)
  | PeerListRequest (peer_id : String)
  | PeerListResponse (peers : List P2PPeerInfo)
  | ChatMessage (message_id sender_id username content : String) (ttl : Nat)
      (seen_by : List String)
  | Handshake (peer_id username protocol_version : String)
  | Heartbeat (peer_id : String) (timestamp : Nat)
  | Disconnect (peer_id : String) (reason : String)
  deriving DecidableEq

/-- `RoutingTable` (`routing.rs:12-23`), peers and message cache as
association lists. -/
structure RoutingTable where
  local_peer_id : String
  peers : List (String × P2PPeerInfo)
  message_cache : List (String × Nat)
  max_cache_size : Nat
  cache_ttl_secs : Nat
  deriving DecidableEq

namespace RoutingTable

/-- `RoutingTable::new` (`routing.rs:27-35`). -/
def new (local_peer_id : String) : RoutingTable :=
  ⟨local_peer_id, [], [], 10000, 300⟩

/-- `add_peer` (`routing.rs:38-42`). -/
def add_peer (t : RoutingTable) (peer_info : P2PPeerInfo) : RoutingTable :=
  { t with peers := mapInsert peer_info.peer_id peer_info t.peers }

/-- `remove_peer` (`routing.rs:45-50`). -/
def remove_peer (t : RoutingTable) (peer_id : String) : RoutingTable :=
  { t with peers := t.peers.filter fun p => p.1 ≠ peer_id }

/-- `get_peers` (`routing.rs:53-56`). -/
def get_peers (t : RoutingTable) : List P2PPeerInfo := t.peers.map fun p => p.2

/-- `has_seen_message` (`routing.rs:59-62`). -/
def has_seen_message (t : RoutingTable) (message_id : String) : Bool :=
  (List.lookup message_id t.message_cache).isSome

/-- `mark_message_seen` (`routing.rs:65-79`), clock explicit.  The eviction
cutoff `now - cache_ttl_secs` is a `u64` subtraction; it is embedded with
truncated `Nat` subtraction, which agrees with the source whenever
`now ≥ cache_ttl_secs`. -/
def mark_message_seen (t : RoutingTable) (message_id : String) (now : Nat) : RoutingTable :=
  let cache := mapInsert message_id now t.message_cache
  if cache.length > t.max_cache_size then
    { t with message_cache := cache.filter fun p => decide (p.2 > now - t.cache_ttl_secs) }
  else { t with message_cache := cache }

end RoutingTable

/-- `RoutingAction` (`routing.rs:316-338`). -/
inductive RoutingAction
  | Drop
  | Deliver (message : P2PMessage)
  | ForwardAndDeliver (original_message forward_message : P2PMessage)
      (forward_to : List String)
  | Respond (to_peer : String) (message : P2PMessage)
  | UpdateHeartbeat (peer_id : String)
  deriving DecidableEq

/-- `MessageRouter` (`routing.rs:108-112`). -/
structure MessageRouter where
  routing_table : RoutingTable
  local_peer_id : String
  local_username : String
  deriving DecidableEq

namespace MessageRouter

/-- `MessageRouter::new` (`routing.rs:116-124`). -/
def new (local_peer_id local_username : String) : MessageRouter :=
  ⟨RoutingTable.new local_peer_id, local_peer_id, local_username⟩

/-- `process_message` (`routing.rs:132-268`), clock explicit; returns the
routing action together with the updated router state. -/
def process_message (r : MessageRouter) (message : P2PMessage) (from_peer_id : String)
    (now : Nat) : RoutingAction × MessageRouter :=
  match message with
  | .ChatMessage message_id sender_id username content ttl seen_by =>
    if r.routing_table.has_seen_message message_id then (.Drop, r)
    else if ttl = 0 then (.Drop, r)
    else if seen_by.contains r.local_peer_id then (.Drop, r)
    else
      let table := r.routing_table.mark_message_seen message_id now
      let seen_by1 := seen_by ++ [r.local_peer_id]
      let forward_message : P2PMessage :=
        .ChatMessage message_id sender_id username content (ttl - 1) seen_by1
      let forward_to :=
        ((table.get_peers).filter fun peer =>
          peer.peer_id ≠ from_peer_id ∧ peer.peer_id ≠ sender_id ∧
            ¬ seen_by1.contains peer.peer_id).map fun peer => peer.peer_id
      (.ForwardAndDeliver
        (.ChatMessage message_id sender_id username content ttl seen_by1)
        forward_message forward_to,
       { r with routing_table := table })
  | .PeerAnnounce peer_id listen_addr username =>
    let peer_info : P2PPeerInfo := ⟨peer_id, listen_addr, username, now⟩
    (.Deliver (.PeerAnnounce peer_id listen_addr username),
     { r with routing_table := r.routing_table.add_peer peer_info })
  | .PeerListRequest peer_id =>
    (.Respond peer_id (.PeerListResponse r.routing_table.get_peers), r)
  | .PeerListResponse peers =>
    (.Deliver (.PeerListResponse peers),
     { r with routing_table := peers.foldl (fun t p => t.add_peer p) r.routing_table })
  | .Handshake peer_id username protocol_version =>
    (.Deliver (.Handshake peer_id username protocol_version), r)
  | .Heartbeat peer_id _timestamp => (.UpdateHeartbeat peer_id, r)
  | .Disconnect peer_id reason =>
    (.Deliver (.Disconnect peer_id reason),
     { r with routing_table := r.routing_table.remove_peer peer_id })

/-- `create_chat_message` (`routing.rs:271-282`), message id explicit in
place of the random UUID: initial TTL 7, `seen_by` starting with us. -/
def create_chat_message (r : MessageRouter) (content message_id : String) : P2PMessage :=
  .ChatMessage message_id r.local_peer_id r.local_username content 7 [r.local_peer_id]

end MessageRouter

/-! ## `identity-gen/src/crypto.rs`: password-wrapped secret, and
`identity-gen/src/identity.rs`: fingerprints -/

/-- Model of the `argon2` crate as the repository uses it: a deterministic
password hash of (password, salt) whose output provides at least 32 bytes;
`Argon2::hash_password` with the same salt string recomputes the same hash. -/
def argon2Hash (password salt : List Nat) : List Nat := sha256 (password ++ salt)

/-- Hex digit as an ASCII byte (lowercase), as `format!("{:02x}")` emits. -/
def hexDigitByte (n : Nat) : Nat := if n < 10 then 48 + n else 87 + n

/-- Model of `base64::engine::general_purpose::STANDARD.encode` from the
contract the repository relies on: an injective encoding of bytes into an
ASCII alphabet that contains no `|` separator byte, with an exact decoder
(two hex digits per byte stand in for the base64 alphabet). -/
def b64encode : List Nat → List Nat
  | [] => []
  | b :: rest => hexDigitByte (b / 16) :: hexDigitByte (b % 16) :: b64encode rest

def hexDigitVal (c : Nat) : Option Nat :=
  if 48 ≤ c ∧ c ≤ 57 then some (c - 48)
  else if 97 ≤ c ∧ c ≤ 102 then some (c - 87)
  else none

/-- Model of the matching base64 decoder: fails on any byte outside the
alphabet or on a truncated group. -/
def b64decode : List Nat → Option (List Nat)
  | [] => some []
  | [_] => none
  | hi :: lo :: rest =>
    match hexDigitVal hi, hexDigitVal lo, b64decode rest with
    | some h, some l, some bs => some ((16 * h + l) :: bs)
    | _, _, _ => none

/-- The `SaltString` alphabet (base64 without padding): every salt the
`argon2` crate generates is drawn from it; it contains no `|` and is ASCII. -/
def isSaltByte (c : Nat) : Bool :=
  (decide (48 ≤ c ∧ c ≤ 57) || decide (65 ≤ c ∧ c ≤ 90) ||
   decide (97 ≤ c ∧ c ≤ 122) || decide (c = 43) || decide (c = 47))

/-- Model of `SaltString::from_b64`: accepts exactly the salt alphabet. -/
def saltFromB64 (s : List Nat) : Option (List Nat) :=
  if s.all isSaltByte then some s else none

/-- Model of `std::str::from_utf8` on the blobs this code produces: they are
ASCII, where UTF-8 validity is exactly bytes below 128. -/
def strFromUtf8 (l : List Nat) : Option (List Nat) :=
  if l.all (· < 128) then some l else none

/-- `str::split('|')`: split a byte string at every separator byte. -/
def splitOnSep (sep : Nat) : List Nat → List (List Nat)
  | [] => [[]]
  | b :: rest =>
    match splitOnSep sep rest with
    | [] => [[]]
    | cur :: others => if b = sep then [] :: cur :: others else (b :: cur) :: others

namespace Encryption

/-- `Encryption::encrypt_secret_key` (`crypto.rs:53-83`), salt and nonce
explicit: Argon2-hash the password with the salt, encrypt the secret under
the first 32 hash bytes with AES-256-GCM, and join
`salt | b64(nonce) | b64(ciphertext)` with the ASCII `|` separator. -/
def encrypt_secret_key (secret_key : List Nat) (password : String) (salt nonce : List Nat) :
    Except String (List Nat) :=
  let hash_bytes := argon2Hash (strBytes password) salt
  let key := hash_bytes.take 32
  let ciphertext := aeadEncrypt key nonce secret_key
  .ok (salt ++ 124 :: b64encode nonce ++ 124 :: b64encode ciphertext)

/-- `Encryption::decrypt_secret_key` (`crypto.rs:85-126`): parse the blob as
UTF-8, split at `|` into exactly three parts, decode, re-derive the key from
the password and stored salt, and AEAD-decrypt.  `Nonce::from_slice` panics
on a wrong-length nonce: that is the outer `none`. -/
def decrypt_secret_key (encrypted_data : List Nat) (password : String) :
    Option (Except String (List Nat)) :=
  match strFromUtf8 encrypted_data with
  | none => some (.error ("Invalid UTF-8"))
  | some data_str =>
    match splitOnSep 124 data_str with
    | [salt_str, nonce_b64, ciphertext_b64] =>
      match b64decode nonce_b64 with
      | none => some (.error ("Invalid nonce base64"))
      | some nonce_bytes =>
        match b64decode ciphertext_b64 with
        | none => some (.error ("Invalid ciphertext base64"))
        | some ciphertext =>
          match saltFromB64 salt_str with
          | none => some (.error ("Invalid salt"))
          | some salt =>
            let hash_bytes := argon2Hash (strBytes password) salt
            let key := hash_bytes.take 32
            if nonce_bytes.length ≠ 12 then none
            else
              match aeadDecrypt key nonce_bytes ciphertext with
              | some plaintext => some (.ok plaintext)
              | none => some (.error ("Decryption failed"))
    | _ => some (.error ("Invalid encrypted data format"))

end Encryption

/-- Hex rendering of one byte, two lowercase digits. -/
def byteHexStr (b : Nat) : String :=
  ⟨[Char.ofNat (hexDigitByte (b / 16 % 16)), Char.ofNat (hexDigitByte (b % 16))]⟩

/-- `Identity::generate_fingerprint` (`identity.rs:42-56`): the first 6 bytes
of SHA-256 of the public key, colon-separated lowercase hex. -/
def Identity.generate_fingerprint (public_key_bytes : List Nat) : String :=
  String.intercalate (":") (((sha256 public_key_bytes).take 6).map byteHexStr)

/-! ## Result-shape helpers and concrete inputs

The helpers project a `process_handshake` result onto the light facts the
theorems speak about (acceptance, and which fingerprint the produced session
key is indexed by), leaving the heavy cryptographic payloads untouched. -/

/-- Whether an `Except` result is `Ok`. -/
def exceptIsOk {ε α : Type} : Except ε α → Bool
  | .ok _ => true
  | .error _ => false

/-- Whether a `process_handshake` result accepted the handshake. -/
def hsAccepted (r : Option (Except String ((SessionKey × Option HandshakeData) × HandshakeManager))) :
    Bool :=
  match r with
  | some (.ok _) => true
  | _ => false

/-- The fingerprint the session key of an accepted handshake is bound to
(the key under which `secure_client.rs:192-193` stores it). -/
def acceptedSessionFingerprint
    (r : Option (Except String ((SessionKey × Option HandshakeData) × HandshakeManager))) :
    Option String :=
  match r with
  | some (.ok ((session_key, _), _)) => some session_key.peer_fingerprint
  | _ => none

/-- A handshake frame whose claimed fingerprint does not belong to its
public key, and whose signature is one unparseable byte: the Kyber material
is well-formed and fresh, everything cryptographic is wrong. -/
def badHandshake : HandshakeData :=
  { peer_info :=
      { username := "mallory", fingerprint := "ff:ff:ff:ff:ff:ff",
        public_key := [], timestamp := 1000 }
    kyber_exchange :=
      { public_key := List.replicate 1184 7, ciphertext := none, timestamp := 1000,
        role := .Initiator }
    signature := [0]
    protocol_version := "dpq-chat-v2-kyber" }

/-- A receiving handshake manager with no prior state. -/
def bobManager : HandshakeManager :=
  HandshakeManager.new ("bob") ("bb:bb:bb:bb:bb:bb") [5, 6, 7, 8] 1000

/-- An initiation frame as node `alice_fp` sends it: placeholder-signed (no
Dilithium keypair loaded), mirroring the repository's own
`test_kyber_handshake_full_flow`.  The receiver accepts it through the
verifier-error fallback because the four-byte public key cannot parse. -/
def aliceHandshake : HandshakeData :=
  { peer_info :=
      { username := "alice", fingerprint := "alice_fp", public_key := [1, 2, 3, 4],
        timestamp := 1000 }
    kyber_exchange :=
      { public_key := List.replicate 1184 3, ciphertext := none, timestamp := 1000,
        role := .Initiator }
    signature := [0]
    protocol_version := "dpq-chat-v2-kyber" }

/-- The mirror-image initiation frame from node `bob_fp`. -/
def bobHandshake : HandshakeData :=
  { peer_info :=
      { username := "bob", fingerprint := "bob_fp", public_key := [5, 6, 7, 8],
        timestamp := 1000 }
    kyber_exchange :=
      { public_key := List.replicate 1184 4, ciphertext := none, timestamp := 1000,
        role := .Initiator }
    signature := [0]
    protocol_version := "dpq-chat-v2-kyber" }

/-- Alice's handshake manager. -/
def aliceManager : HandshakeManager :=
  HandshakeManager.new ("alice") ("alice_fp") [1, 2, 3, 4] 1000

/-- Bob's handshake manager under his real fingerprint. -/
def bobFpManager : HandshakeManager :=
  HandshakeManager.new ("bob") ("bob_fp") [5, 6, 7, 8] 1000

/-- A router whose table holds one other peer `P`, for the TTL boundary
case. -/
def c6Router : MessageRouter :=
  { routing_table :=
      { local_peer_id := "L", peers := [("P", ⟨"P", "10.0.0.2:9000", "peer", 0⟩)],
        message_cache := [], max_cache_size := 10000, cache_ttl_secs := 300 }
    local_peer_id := "L"
    local_username := "me" }

/-- A TTL-1 chat message from sender `S` that nobody has seen yet. -/
def c6Msg : P2PMessage := .ChatMessage ("m1") ("S") ("alice") ("hi") 1 []

/-- Modelled from the spec: the claimed session-key derivation
`SHA-256(shared_secret || "session-key-context")` — a single SHA-256 of the
raw Kyber shared secret and that context string, and nothing else. -/
def specSessionKeyDerivation (shared_secret : List Nat) : List Nat :=
  sha256 (shared_secret ++ strBytes ("session-key-context"))

/-- A concrete 32-byte Kyber shared secret. -/
def c9SharedSecret : List Nat := List.replicate 32 42

/-- An already-expired session key (created at epoch 0) with a known key. -/
def c4Key : SessionKey := ⟨List.replicate 32 5, 0, "peer_fp"⟩

/-- A concrete session key for the message round-trip boundary case. -/
def c7Key : SessionKey := ⟨List.replicate 32 1, 0, "fp"⟩

/-- A concrete two-byte text message. -/
def c7Msg : PlainMessage := ⟨[104, 105], [97], 3, .Text⟩

/-! ## Supporting lemmas -/

set_option maxRecDepth 16000
set_option maxHeartbeats 1000000

theorem natToBytes_length (n len : Nat) : (natToBytes n len).length = len := by
  induction len generalizing n with
  | zero => rfl
  | succ l ih => simp [natToBytes, ih]

theorem bytesToNat_natToBytes (n len : Nat) :
    bytesToNat (natToBytes n len) = n % 256 ^ len := by
  induction len generalizing n with
  | zero => simp [natToBytes, bytesToNat, Nat.mod_one]
  | succ l ih =>
    have step : bytesToNat (natToBytes n (l + 1)) =
        n % 256 % 256 + 256 * bytesToNat (natToBytes (n / 256) l) := rfl
    rw [step, ih, Nat.mod_mod_of_dvd n (dvd_refl 256), ← Nat.mod_mul, ← pow_succ']

theorem aeadKeystream_length (key nonce : List Nat) (len : Nat) :
    (aeadKeystream key nonce len).length = len := by
  simp [aeadKeystream]

theorem maskBytes_mask (pt ks : List Nat) (h : pt.length = ks.length) :
    maskBytes (maskBytes pt ks) ks = pt := by
  induction pt generalizing ks with
  | nil => simp [maskBytes]
  | cons a pt ih =>
    cases ks with
    | nil => simp at h
    | cons b ks =>
      have h' : pt.length = ks.length := by simpa using h
      have hrec := ih ks h'
      simp only [maskBytes, List.zipWith_cons_cons] at hrec ⊢
      rw [Nat.xor_cancel_right, hrec]

theorem maskBytes_length (pt ks : List Nat) :
    (maskBytes pt ks).length = min pt.length ks.length := by
  simp [maskBytes]

theorem aeadTag_length (key nonce ct : List Nat) : (aeadTag key nonce ct).length = 16 := by
  simp [aeadTag]

theorem aeadDecrypt_aeadEncrypt (key nonce pt : List Nat) :
    aeadDecrypt key nonce (aeadEncrypt key nonce pt) = some pt := by
  have hks : (aeadKeystream key nonce pt.length).length = pt.length :=
    aeadKeystream_length key nonce pt.length
  have hlen : (maskBytes pt (aeadKeystream key nonce pt.length)).length = pt.length := by
    rw [maskBytes_length, hks, Nat.min_self]
  simp only [aeadEncrypt, aeadDecrypt]
  rw [List.length_append, aeadTag_length, if_neg (by omega)]
  have hsub : (maskBytes pt (aeadKeystream key nonce pt.length)).length + 16 - 16
      = (maskBytes pt (aeadKeystream key nonce pt.length)).length := by omega
  rw [hsub, List.take_left, List.drop_left, if_pos rfl, hlen,
    maskBytes_mask pt (aeadKeystream key nonce pt.length) hks.symm]

theorem decodeNat_encodeNat (n : Nat) (r : List Nat) :
    decodeNat (encodeNat n ++ r) = some (n, r) := by
  induction n with
  | zero => rfl
  | succ m ih => simp [encodeNat, decodeNat, ih]

theorem decodeBytes_encodeBytes (bs r : List Nat) :
    decodeBytes (encodeBytes bs ++ r) = some (bs, r) := by
  unfold decodeBytes encodeBytes
  rw [List.append_assoc, decodeNat_encodeNat]
  simp only []
  rw [if_pos (by rw [List.length_append]; omega)]
  rw [List.take_left, List.drop_left]

theorem decodeMessageType_encodeMessageType (t : MessageType) (r : List Nat) :
    decodeMessageType (encodeMessageType t ++ r) = some (t, r) := by
  cases t with
  | Text => rfl
  | File filename size =>
    simp only [encodeMessageType, List.cons_append, List.append_assoc, decodeMessageType,
      decodeBytes_encodeBytes, decodeNat_encodeNat]
  | System => rfl
  | Typing => rfl
  | Ack message_id =>
    simp only [encodeMessageType, List.cons_append, decodeMessageType, decodeNat_encodeNat]
    rfl

theorem decodePlainMessage_encodePlainMessage (m : PlainMessage) :
    decodePlainMessage (encodePlainMessage m) = some m := by
  conv_lhs => rw [encodePlainMessage, ← List.append_nil (encodeMessageType m.message_type)]
  simp only [decodePlainMessage, List.append_assoc, decodeBytes_encodeBytes,
    decodeNat_encodeNat, decodeMessageType_encodeMessageType]
  rfl

theorem checkedSub_eq_some (a b c : Nat) (h : checkedSub a b = some c) :
    b ≤ a ∧ c = a - b := by
  unfold checkedSub at h
  split at h <;> simp_all

/-- `SessionKey::decrypt` inverts `SessionKey::encrypt` for a 12-byte nonce:
the nonce splits off exactly and the AEAD round-trips. -/
theorem sessionKey_decrypt_encrypt (k : SessionKey) (nonce msg : List Nat)
    (h : nonce.length = 12) :
    k.decrypt (nonce ++ aeadEncrypt k.key nonce msg) = .ok msg := by
  unfold SessionKey.decrypt
  rw [List.length_append, h, if_neg (by omega), List.take_left' h, List.drop_left' h,
    aeadDecrypt_aeadEncrypt]

/-! ## Claim theorems -/

/-- C5: with a last-seen sequence recorded for a peer, `validate_sequence`
rejects any incoming sequence at or below it and accepts any strictly
greater one, recording the new value — so accepted sequences are strictly
increasing until the peer entry is reset. -/
theorem validate_sequence_strictly_monotone
    (m : MessageSequenceManager) (fp : String) (seq last : Nat)
    (h : List.lookup fp m.peer_sequences = some last) :
    (seq ≤ last → exceptIsOk (m.validate_sequence fp seq) = false) ∧
    (last < seq →
      m.validate_sequence fp seq =
        .ok { m with peer_sequences := mapInsert fp seq m.peer_sequences } ∧
      List.lookup fp (mapInsert fp seq m.peer_sequences) = some seq) := by
  simp only [MessageSequenceManager.validate_sequence, h]
  constructor
  · intro hle
    rw [if_pos hle]
    rfl
  · intro hlt
    rw [if_neg (by omega)]
    exact ⟨rfl, by simp [mapInsert, List.lookup]⟩

/-- C5 witness: a peer with last-seen 5 rejects 5 and accepts 6. -/
theorem validate_sequence_strictly_monotone_witness :
    ((5 ≤ 5 →
      exceptIsOk ((⟨[(("p"), 5)], 0⟩ : MessageSequenceManager).validate_sequence ("p") 5)
        = false) ∧
    (5 < 5 →
      (⟨[(("p"), 5)], 0⟩ : MessageSequenceManager).validate_sequence ("p") 5 =
        .ok { (⟨[(("p"), 5)], 0⟩ : MessageSequenceManager) with
          peer_sequences := mapInsert ("p") 5 [(("p"), 5)] } ∧
      List.lookup ("p") (mapInsert ("p") 5 [(("p"), 5)]) = some 5)) ∧
    ((6 ≤ 5 →
      exceptIsOk ((⟨[(("p"), 5)], 0⟩ : MessageSequenceManager).validate_sequence ("p") 6)
        = false) ∧
    (5 < 6 →
      (⟨[(("p"), 5)], 0⟩ : MessageSequenceManager).validate_sequence ("p") 6 =
        .ok { (⟨[(("p"), 5)], 0⟩ : MessageSequenceManager) with
          peer_sequences := mapInsert ("p") 6 [(("p"), 5)] } ∧
      List.lookup ("p") (mapInsert ("p") 6 [(("p"), 5)]) = some 6)) :=
  ⟨validate_sequence_strictly_monotone ⟨[(("p"), 5)], 0⟩ ("p") 5 5 (by decide),
   validate_sequence_strictly_monotone ⟨[(("p"), 5)], 0⟩ ("p") 6 5 (by decide)⟩

/-- C10: the three freshness checks subtract `now - timestamp` on `u64`
first; for any input stamped in the future the subtraction underflows, so
under checked arithmetic each operation panics (`none`) instead of
classifying the input. -/
theorem freshness_checks_underflow_on_future_timestamps :
    (∀ (em : EncryptedMessage) (expected : String) (maxAge now : Nat), now < em.timestamp →
      MessageCrypto.verify_message_integrity em expected maxAge now = none) ∧
    (∀ (d : KyberKeyExchange) (maxAge now : Nat), now < d.timestamp →
      KyberKeyExchangeManager.verify_key_exchange d maxAge now = none) ∧
    (∀ (k : SessionKey) (now : Nat), now < k.created_at → k.is_expired now = none) := by
  refine ⟨?_, ?_, ?_⟩
  · intro em expected maxAge now h
    simp [MessageCrypto.verify_message_integrity, checkedSub, Nat.not_le.mpr h]
  · intro d maxAge now h
    simp [KyberKeyExchangeManager.verify_key_exchange, checkedSub, Nat.not_le.mpr h]
  · intro k now h
    simp [SessionKey.is_expired, checkedSub, Nat.not_le.mpr h]

/-- C10 witness: each check panics on a timestamp 10 at clock 5. -/
theorem freshness_checks_underflow_on_future_timestamps_witness :
    MessageCrypto.verify_message_integrity ⟨("f"), [], 10, .Text, 1⟩ ("f") 300 5 = none ∧
    KyberKeyExchangeManager.verify_key_exchange ⟨[], none, 10, .Initiator⟩ 300 5 = none ∧
    SessionKey.is_expired ⟨[], 10, ("f")⟩ 5 = none :=
  ⟨freshness_checks_underflow_on_future_timestamps.1 ⟨("f"), [], 10, .Text, 1⟩ ("f") 300 5
      (by decide),
   freshness_checks_underflow_on_future_timestamps.2.1 ⟨[], none, 10, .Initiator⟩ 300 5
      (by decide),
   freshness_checks_underflow_on_future_timestamps.2.2 ⟨[], 10, ("f")⟩ 5 (by decide)⟩

/-- C4 counterexample: a session key created at 0 is expired at clock 7200,
yet `SessionKey::decrypt` still returns the plaintext — decryption takes no
clock and performs no expiry check, so the claim that no decrypt succeeds
with an expired key is false. -/
theorem decrypt_succeeds_with_expired_key :
    c4Key.is_expired 7200 = some true ∧
    ∃ enc, c4Key.encrypt (List.replicate 12 9) [104, 105] = .ok enc ∧
      c4Key.decrypt enc = .ok [104, 105] :=
  ⟨by decide, ⟨_, rfl, sessionKey_decrypt_encrypt c4Key (List.replicate 12 9) [104, 105] rfl⟩⟩

/-- C4: amended — `is_expired` is true exactly for keys strictly older than
one hour (when the clock is not behind the creation time), but neither
`SessionKey::decrypt` nor `decrypt_message` checks expiry: decryption of a
well-formed ciphertext succeeds regardless of the key's age, and expiry is
enforced only by the session manager's cleanup sweep. -/
theorem is_expired_iff_and_decrypt_ignores_expiry :
    (∀ (k : SessionKey) (now : Nat), k.created_at ≤ now →
      (k.is_expired now = some true ↔ 3600 < now - k.created_at)) ∧
    (∀ (k : SessionKey) (nonce msg : List Nat), nonce.length = 12 →
      ∃ enc, k.encrypt nonce msg = .ok enc ∧ k.decrypt enc = .ok msg) := by
  constructor
  · intro k now h
    simp [SessionKey.is_expired, checkedSub, h]
  · intro k nonce msg h
    exact ⟨_, rfl, sessionKey_decrypt_encrypt k nonce msg h⟩

/-- C4 witness: the boundary at exactly one hour is not expired, one second
past it is, and a fresh key decrypts. -/
theorem is_expired_iff_and_decrypt_ignores_expiry_witness :
    (c4Key.is_expired 3600 = some true ↔ 3600 < 3600 - c4Key.created_at) ∧
    (c4Key.is_expired 3601 = some true ↔ 3600 < 3601 - c4Key.created_at) ∧
    ∃ enc, c4Key.encrypt (List.replicate 12 3) [7] = .ok enc ∧
      c4Key.decrypt enc = .ok [7] :=
  ⟨is_expired_iff_and_decrypt_ignores_expiry.1 c4Key 3600 (by decide),
   is_expired_iff_and_decrypt_ignores_expiry.1 c4Key 3601 (by decide),
   is_expired_iff_and_decrypt_ignores_expiry.2 c4Key (List.replicate 12 3) [7] (by decide)⟩

/-- C9 counterexample: for the concrete 32-byte shared secret of 42s, the
installed session key differs from the claimed single
`SHA-256(shared_secret || "session-key-context")`; the code hashes twice
with different context strings. -/
theorem session_key_not_single_sha256_of_raw_secret :
    (SessionKey.from_shared_secret
      (KyberKeyExchangeManager.derive_shared_secret c9SharedSecret ("kyber-session"))
      ("peer_fp") 50).key ≠ specSessionKeyDerivation c9SharedSecret := by
  decide

/-- C9: amended — the session key installed after a Kyber exchange is a
double hash: SHA-256 of (SHA-256 of the raw shared secret, the context
`"kyber-session"`, and `"terminal-chat-kyber-kdf"`), followed by the context
`"dpq-chat-session-key"`. -/
theorem session_key_double_sha256 (ss : List Nat) (fp : String) (now : Nat) :
    (SessionKey.from_shared_secret
      (KyberKeyExchangeManager.derive_shared_secret ss ("kyber-session")) fp now).key =
    (sha256 (sha256 (ss ++ strBytes ("kyber-session") ++ strBytes ("terminal-chat-kyber-kdf"))
      ++ strBytes ("dpq-chat-session-key"))).take 32 := by
  simp [SessionKey.from_shared_secret, KyberKeyExchangeManager.derive_shared_secret,
    List.append_assoc]

/-- C6 counterexample: a TTL-1 chat message reaching a router that knows one
other eligible peer is delivered locally but also forwarded to that peer
(with TTL 0) — the forward set is not empty. -/
theorem ttl_one_message_is_forwarded :
    (c6Router.process_message c6Msg ("S") 100).1 =
      .ForwardAndDeliver (.ChatMessage ("m1") ("S") ("alice") ("hi") 1 [("L")])
        (.ChatMessage ("m1") ("S") ("alice") ("hi") 0 [("L")]) [("P")] := by
  decide

/-- C6: amended — an accepted TTL-1 chat message is delivered locally and
forwarded with TTL decremented to 0 to the eligible peers (those other than
the origin, the sender, and the `seen_by` set); it is not forwarded further
because every router drops a TTL-0 message outright. -/
theorem ttl_one_forward_and_ttl_zero_drop :
    (∀ (r : MessageRouter) (mid sid uname content : String) (seen : List String)
        (fromP : String) (now : Nat),
      r.routing_table.has_seen_message mid = false →
      seen.contains r.local_peer_id = false →
      ∃ fwd r',
        r.process_message (.ChatMessage mid sid uname content 1 seen) fromP now =
          (.ForwardAndDeliver
            (.ChatMessage mid sid uname content 1 (seen ++ [r.local_peer_id]))
            (.ChatMessage mid sid uname content 0 (seen ++ [r.local_peer_id])) fwd, r')) ∧
    (∀ (r : MessageRouter) (mid sid uname content : String) (seen : List String)
        (fromP : String) (now : Nat),
      r.process_message (.ChatMessage mid sid uname content 0 seen) fromP now = (.Drop, r)) := by
  constructor
  · intro r mid sid uname content seen fromP now h1 h2
    simp only [MessageRouter.process_message, h1, h2, Bool.false_eq_true, if_false,
      Nat.one_ne_zero, Nat.sub_self]
    exact ⟨_, _, rfl⟩
  · intro r mid sid uname content seen fromP now
    cases hseen : r.routing_table.has_seen_message mid with
    | true => simp [MessageRouter.process_message, hseen]
    | false => simp [MessageRouter.process_message, hseen]

/-- C7: for every session key, plain message, sequence number and fresh
12-byte nonce, `decrypt_message` inverts `encrypt_message`, returning the
message exactly, and the envelope carries the session key's fingerprint, the
message timestamp and type, and the given sequence. -/
theorem decrypt_message_encrypt_message_roundtrip
    (k : SessionKey) (msg : PlainMessage) (seq : Nat) (nonce : List Nat)
    (h : nonce.length = 12) :
    ∃ em, MessageCrypto.encrypt_message k msg seq nonce = .ok em ∧
      MessageCrypto.decrypt_message k em = .ok msg ∧
      em.sender_fingerprint = k.peer_fingerprint ∧ em.timestamp = msg.timestamp ∧
      em.message_type = msg.message_type ∧ em.sequence = seq := by
  refine ⟨_, rfl, ?_, rfl, rfl, rfl, rfl⟩
  simp only [MessageCrypto.decrypt_message, MessageCrypto.encrypt_message, SessionKey.encrypt,
    Except.map, sessionKey_decrypt_encrypt k nonce (encodePlainMessage msg) h,
    decodePlainMessage_encodePlainMessage]

/-- C7 witness: the round trip at a concrete key, message and nonce. -/
theorem decrypt_message_encrypt_message_roundtrip_witness :
    ∃ em, MessageCrypto.encrypt_message c7Key c7Msg 1 (List.replicate 12 2) = .ok em ∧
      MessageCrypto.decrypt_message c7Key em = .ok c7Msg ∧
      em.sender_fingerprint = c7Key.peer_fingerprint ∧ em.timestamp = c7Msg.timestamp ∧
      em.message_type = c7Msg.message_type ∧ em.sequence = 1 :=
  decrypt_message_encrypt_message_roundtrip c7Key c7Msg 1 (List.replicate 12 2) (by decide)

theorem dilithiumSigBytes_length (seed : Nat) (m : List Nat) :
    (dilithiumSigBytes seed m).length = dilithium2SignatureBytes := by
  simp [dilithiumSigBytes]

theorem dilithiumPublicKeyFromBytes_asBytes (pk : DilithiumPublicKey)
    (h : pk.seed < 256 ^ dilithium2PublicKeyBytes) :
    dilithiumPublicKeyFromBytes pk.asBytes = some pk := by
  unfold dilithiumPublicKeyFromBytes DilithiumPublicKey.asBytes
  rw [if_pos (natToBytes_length _ _), bytesToNat_natToBytes, Nat.mod_eq_of_lt h]

theorem dilithiumOpen_dilithiumSign (sk : DilithiumSecretKey) (pk : DilithiumPublicKey)
    (hseed : pk.seed = sk.seed) (m : List Nat) :
    dilithiumOpen (dilithiumSign sk m) pk = some m := by
  have hc : dilithium2SignatureBytes ≤ (dilithiumSign sk m).length ∧
      (dilithiumSign sk m).take dilithium2SignatureBytes =
        dilithiumSigBytes pk.seed ((dilithiumSign sk m).drop dilithium2SignatureBytes) := by
    unfold dilithiumSign
    refine ⟨?_, ?_⟩
    · rw [List.length_append, dilithiumSigBytes_length]
      omega
    · rw [List.take_left' (dilithiumSigBytes_length sk.seed m),
        List.drop_left' (dilithiumSigBytes_length sk.seed m), hseed]
  unfold dilithiumOpen
  rw [if_pos hc]
  unfold dilithiumSign
  rw [List.drop_left' (dilithiumSigBytes_length sk.seed m)]

theorem keyPair_generate_seed_lt (seed : Nat) :
    (KeyPair.generate seed).public_key.seed < 256 ^ dilithium2PublicKeyBytes :=
  Nat.mod_lt _ (by positivity)

/-- C3: amended — `DilithiumVerifier::verify` accepts exactly when the
message equals the signed message; but `KeyPair::verify` (identity-gen)
ignores its message argument entirely and accepts any blob that opens under
the public key, whatever message is passed. -/
theorem dilithium_verify_iff_keypair_verify_ignores_message :
    (∀ (seed : Nat) (m mSigned : List Nat),
      DilithiumVerifier.verify m ((KeyPair.generate seed).sign mSigned)
        (KeyPair.generate seed).public_key_bytes = .ok true ↔ m = mSigned) ∧
    (∀ (seed : Nat) (m mSigned : List Nat),
      KeyPair.verify m ((KeyPair.generate seed).sign mSigned)
        (KeyPair.generate seed).public_key_bytes = true) := by
  have hopen : ∀ (seed : Nat) (mSigned : List Nat),
      dilithiumOpen (dilithiumSign (KeyPair.generate seed).secret_key mSigned)
        (KeyPair.generate seed).public_key = some mSigned := fun seed mSigned =>
    dilithiumOpen_dilithiumSign (KeyPair.generate seed).secret_key
      (KeyPair.generate seed).public_key rfl mSigned
  constructor
  · intro seed m mSigned
    simp only [DilithiumVerifier.verify, KeyPair.public_key_bytes, KeyPair.sign,
      dilithiumPublicKeyFromBytes_asBytes _ (keyPair_generate_seed_lt seed),
      hopen seed mSigned]
    simp [eq_comm]
  · intro seed m mSigned
    simp only [KeyPair.verify, KeyPair.public_key_bytes, KeyPair.sign,
      dilithiumPublicKeyFromBytes_asBytes _ (keyPair_generate_seed_lt seed),
      hopen seed mSigned]
    rfl

/-- C3 counterexample: `KeyPair::verify` returns true for message `[1]`
against a signature made over `[2]` — verification is not false when the
message argument differs from the signed message. -/
theorem keypair_verify_accepts_wrong_message :
    KeyPair.verify [1] ((KeyPair.generate 5).sign [2]) (KeyPair.generate 5).public_key_bytes
      = true ∧ ([1] : List Nat) ≠ [2] := by
  constructor
  · simp only [KeyPair.verify, KeyPair.public_key_bytes, KeyPair.sign,
      dilithiumPublicKeyFromBytes_asBytes _ (keyPair_generate_seed_lt 5),
      dilithiumOpen_dilithiumSign (KeyPair.generate 5).secret_key
        (KeyPair.generate 5).public_key rfl [2]]
    rfl
  · decide

theorem sha256_byte_lt (l : List Nat) : ∀ b ∈ sha256 l, b < 256 := by
  intro b hb
  unfold sha256 at hb
  rw [List.mem_flatten] at hb
  rcases hb with ⟨w, hw, hbw⟩
  rw [List.mem_map] at hw
  rcases hw with ⟨hword, _, rfl⟩
  simp only [wordBytes, List.mem_cons, List.not_mem_nil, or_false] at hbw
  rcases hbw with h1 | h1 | h1 | h1 <;> subst h1 <;> exact Nat.mod_lt _ (by norm_num)

theorem aeadKeystream_byte_lt (key nonce : List Nat) (len : Nat) :
    ∀ b ∈ aeadKeystream key nonce len, b < 256 := by
  intro b hb
  simp only [aeadKeystream, List.mem_map] at hb
  rcases hb with ⟨i, _, rfl⟩
  rcases hh : sha256 (key ++ nonce ++ natToBytes i 8) with _ | ⟨x, xs⟩
  · simp [List.headD]
  · have hx := sha256_byte_lt (key ++ nonce ++ natToBytes i 8) x
      (by rw [hh]; exact List.mem_cons_self x xs)
    simpa [hh, List.headD] using hx

theorem maskBytes_byte_lt (pt : List Nat) : ∀ (ks : List Nat), (∀ b ∈ pt, b < 256) →
    (∀ b ∈ ks, b < 256) → ∀ b ∈ maskBytes pt ks, b < 256 := by
  induction pt with
  | nil =>
    intro ks _ _ b hb
    simp [maskBytes] at hb
  | cons a t ih =>
    intro ks hpt hks b hb
    cases ks with
    | nil => simp [maskBytes] at hb
    | cons c cs =>
      simp only [maskBytes, List.zipWith_cons_cons, List.mem_cons] at hb
      rcases hb with rfl | hb
      · exact Nat.xor_lt_two_pow (show a < 2 ^ 8 from hpt a (List.mem_cons_self a t))
          (show c < 2 ^ 8 from hks c (List.mem_cons_self c cs))
      · exact ih cs (fun x hx => hpt x (List.mem_cons_of_mem _ hx))
          (fun x hx => hks x (List.mem_cons_of_mem _ hx)) b hb

theorem aeadTag_byte_lt (key nonce ct : List Nat) : ∀ b ∈ aeadTag key nonce ct, b < 256 := by
  intro b hb
  simp only [aeadTag] at hb
  have hb' := List.mem_of_mem_take hb
  rw [List.mem_append] at hb'
  rcases hb' with h1 | h1
  · exact sha256_byte_lt _ b h1
  · rw [List.eq_of_mem_replicate h1]
    norm_num

theorem aeadEncrypt_byte_lt (key nonce pt : List Nat) (hpt : ∀ b ∈ pt, b < 256) :
    ∀ b ∈ aeadEncrypt key nonce pt, b < 256 := by
  intro b hb
  simp only [aeadEncrypt, List.mem_append] at hb
  rcases hb with h1 | h1
  · exact maskBytes_byte_lt _ _ hpt (aeadKeystream_byte_lt _ _ _) b h1
  · exact aeadTag_byte_lt _ _ _ b h1

theorem hexDigitByte_le (n : Nat) (h : n ≤ 15) : hexDigitByte n ≤ 102 := by
  unfold hexDigitByte
  split <;> omega

theorem hexDigitVal_hexDigitByte (n : Nat) (h : n ≤ 15) :
    hexDigitVal (hexDigitByte n) = some n := by
  unfold hexDigitVal hexDigitByte
  split
  next h10 =>
    rw [if_pos (by omega)]
    congr 1
    omega
  next h10 =>
    rw [if_neg (by omega), if_pos (by omega)]
    congr 1
    omega

theorem b64decode_b64encode (bs : List Nat) (h : ∀ b ∈ bs, b < 256) :
    b64decode (b64encode bs) = some bs := by
  induction bs with
  | nil => rfl
  | cons a t ih =>
    have ha : a < 256 := h a (List.mem_cons_self a t)
    have hval : 16 * (a / 16) + a % 16 = a := by omega
    simp only [b64encode, b64decode, hexDigitVal_hexDigitByte _ (by omega : a / 16 ≤ 15),
      hexDigitVal_hexDigitByte _ (by omega : a % 16 ≤ 15),
      ih (fun b hb => h b (List.mem_cons_of_mem _ hb)), hval]

theorem b64encode_byte_le (bs : List Nat) (h : ∀ b ∈ bs, b < 256) :
    ∀ c ∈ b64encode bs, c ≤ 102 := by
  induction bs with
  | nil => intro c hc; simp [b64encode] at hc
  | cons a t ih =>
    intro c hc
    have ha : a < 256 := h a (List.mem_cons_self a t)
    simp only [b64encode, List.mem_cons] at hc
    rcases hc with rfl | rfl | hc
    · exact hexDigitByte_le _ (by omega)
    · exact hexDigitByte_le _ (by omega)
    · exact ih (fun b hb => h b (List.mem_cons_of_mem _ hb)) c hc

theorem isSaltByte_lt (c : Nat) (h : isSaltByte c = true) : c < 124 := by
  unfold isSaltByte at h
  simp only [Bool.or_eq_true, decide_eq_true_eq] at h
  omega

theorem splitOnSep_ne_nil (sep : Nat) (l : List Nat) : splitOnSep sep l ≠ [] := by
  cases l with
  | nil => simp [splitOnSep]
  | cons b t =>
    rw [splitOnSep]
    rcases splitOnSep sep t with _ | ⟨cur, others⟩
    · simp
    · by_cases hb : b = sep
      · simp [hb]
      · simp [hb]

theorem splitOnSep_no_sep (sep : Nat) (a : List Nat) (h : ∀ c ∈ a, c ≠ sep) :
    splitOnSep sep a = [a] := by
  induction a with
  | nil => rfl
  | cons b t ih =>
    have hb : b ≠ sep := h b (List.mem_cons_self b t)
    rw [splitOnSep, ih (fun c hc => h c (List.mem_cons_of_mem _ hc))]
    simp [hb]

theorem splitOnSep_append (sep : Nat) (a rest : List Nat) (h : ∀ c ∈ a, c ≠ sep) :
    splitOnSep sep (a ++ sep :: rest) = a :: splitOnSep sep rest := by
  induction a with
  | nil =>
    rw [List.nil_append, splitOnSep]
    rcases hs : splitOnSep sep rest with _ | ⟨cur, others⟩
    · exact absurd hs (splitOnSep_ne_nil sep rest)
    · simp
  | cons b t ih =>
    have hb : b ≠ sep := h b (List.mem_cons_self b t)
    rw [List.cons_append, splitOnSep, ih (fun c hc => h c (List.mem_cons_of_mem _ hc))]
    simp [hb]

/-- C8: for every secret, password, generated salt and fresh 12-byte nonce,
`decrypt_secret_key` inverts `encrypt_secret_key`, returning exactly the
secret bytes — so the identity's public key (untouched by the wrap) and its
recomputed fingerprint are unchanged by an encrypt-then-decrypt round trip. -/
theorem decrypt_secret_key_encrypt_secret_key_roundtrip
    (sk : List Nat) (password : String) (salt nonce : List Nat)
    (hsalt : salt.all isSaltByte = true) (hn : nonce.length = 12)
    (hnb : ∀ b ∈ nonce, b < 256) (hsk : ∀ b ∈ sk, b < 256) :
    ∃ blob, Encryption.encrypt_secret_key sk password salt nonce = .ok blob ∧
      Encryption.decrypt_secret_key blob password = some (.ok sk) := by
  have hsalt' : ∀ c ∈ salt, isSaltByte c = true := by
    rw [List.all_eq_true] at hsalt
    exact fun c hc => hsalt c hc
  have hct : ∀ b ∈ aeadEncrypt ((argon2Hash (strBytes password) salt).take 32) nonce sk,
      b < 256 := aeadEncrypt_byte_lt _ _ _ hsk
  have henc : Encryption.encrypt_secret_key sk password salt nonce =
      .ok (salt ++ 124 :: b64encode nonce ++ 124 :: b64encode
        (aeadEncrypt ((argon2Hash (strBytes password) salt).take 32) nonce sk)) := rfl
  refine ⟨_, henc, ?_⟩
  have hascii : ((salt ++ 124 :: b64encode nonce ++ 124 :: b64encode
      (aeadEncrypt ((argon2Hash (strBytes password) salt).take 32) nonce sk)).all
      (· < 128)) = true := by
    simp only [List.all_append, List.all_cons, Bool.and_eq_true, List.all_eq_true,
      decide_eq_true_eq]
    exact ⟨⟨fun c hc => by have := isSaltByte_lt c (hsalt' c hc); omega, by omega,
      fun c hc => by have := b64encode_byte_le nonce hnb c hc; omega⟩,
      by omega, fun c hc => by have := b64encode_byte_le _ hct c hc; omega⟩
  have hutf8 : strFromUtf8 (salt ++ 124 :: b64encode nonce ++ 124 :: b64encode
      (aeadEncrypt ((argon2Hash (strBytes password) salt).take 32) nonce sk)) =
      some (salt ++ 124 :: b64encode nonce ++ 124 :: b64encode
        (aeadEncrypt ((argon2Hash (strBytes password) salt).take 32) nonce sk)) := by
    unfold strFromUtf8
    rw [if_pos hascii]
  have hsplit : splitOnSep 124 (salt ++ 124 :: b64encode nonce ++ 124 :: b64encode
      (aeadEncrypt ((argon2Hash (strBytes password) salt).take 32) nonce sk)) =
      [salt, b64encode nonce, b64encode
        (aeadEncrypt ((argon2Hash (strBytes password) salt).take 32) nonce sk)] := by
    rw [List.append_assoc, List.cons_append,
      splitOnSep_append 124 salt _
      (fun c hc => by have := isSaltByte_lt c (hsalt' c hc); omega),
      splitOnSep_append 124 (b64encode nonce) _
      (fun c hc => by have := b64encode_byte_le nonce hnb c hc; omega),
      splitOnSep_no_sep 124 _
      (fun c hc => by have := b64encode_byte_le _ hct c hc; omega)]
  have hsaltok : saltFromB64 salt = some salt := by
    unfold saltFromB64
    rw [if_pos hsalt]
  simp only [Encryption.decrypt_secret_key, hutf8, hsplit, b64decode_b64encode nonce hnb,
    b64decode_b64encode _ hct, hsaltok, hn, ne_eq, not_true_eq_false, if_false,
    aeadDecrypt_aeadEncrypt]

/-- C8 witness: the round trip at a concrete secret, password, salt and
nonce. -/
theorem decrypt_secret_key_encrypt_secret_key_roundtrip_witness :
    ∃ blob, Encryption.encrypt_secret_key [1, 2] ("pw") (strBytes ("salty"))
        (List.replicate 12 7) = .ok blob ∧
      Encryption.decrypt_secret_key blob ("pw") = some (.ok [1, 2]) :=
  decrypt_secret_key_encrypt_secret_key_roundtrip [1, 2] ("pw") (strBytes ("salty"))
    (List.replicate 12 7) (by decide) (by decide) (by decide) (by decide)

theorem verify_key_exchange_ok_fresh (d : KyberKeyExchange) (maxAge now : Nat)
    (h : KyberKeyExchangeManager.verify_key_exchange d maxAge now = some (.ok ())) :
    d.timestamp ≤ now ∧ now - d.timestamp ≤ maxAge := by
  unfold KyberKeyExchangeManager.verify_key_exchange at h
  rcases hcs : checkedSub now d.timestamp with _ | age
  · rw [hcs] at h
    simp at h
  · rw [hcs] at h
    obtain ⟨hle, hage⟩ := checkedSub_eq_some _ _ _ hcs
    subst hage
    refine ⟨hle, ?_⟩
    by_contra hgt
    simp only [Option.map] at h
    rw [if_pos (by omega)] at h
    exact absurd h (by simp)

/-- An accepted handshake passed every check in `verify_handshake`. -/
theorem verify_handshake_ok_conditions (m : HandshakeManager) (hd : HandshakeData) (now : Nat)
    (h : m.verify_handshake hd now = some (.ok ())) :
    hd.protocol_version = "dpq-chat-v2-kyber" ∧
    hd.kyber_exchange.timestamp ≤ now ∧ now - hd.kyber_exchange.timestamp ≤ 300 ∧
    hd.signature ≠ [] ∧
    DilithiumVerifier.verify
      (HandshakeManager.create_signature_data hd.peer_info hd.kyber_exchange)
      hd.signature hd.peer_info.public_key ≠ .ok false := by
  unfold HandshakeManager.verify_handshake at h
  by_cases hpv : hd.protocol_version = "dpq-chat-v2-kyber"
  case neg =>
    rw [if_pos hpv] at h
    exact absurd h (by simp)
  case pos =>
    rw [if_neg (not_not_intro hpv)] at h
    rcases hkx : KyberKeyExchangeManager.verify_key_exchange hd.kyber_exchange 300 now
      with _ | ev
    · rw [hkx] at h
      exact absurd h (by simp)
    · rcases ev with e | u
      · rw [hkx] at h
        exact absurd h (by simp)
      · cases u
        rw [hkx] at h
        obtain ⟨hts, hage⟩ := verify_key_exchange_ok_fresh _ _ _ hkx
        by_cases hsig : hd.signature = []
        · rw [if_pos hsig] at h
          exact absurd h (by simp)
        · rw [if_neg hsig] at h
          refine ⟨hpv, hts, hage, hsig, ?_⟩
          intro hver
          rw [hver] at h
          exact absurd h (by simp)

/-- C1: amended — `process_handshake` accepts only if the protocol version
matches, the Kyber timestamp is fresh (at most 300 s old and not in the
future), the signature is non-empty, and Dilithium verification does not
report the signature invalid; but no fingerprint-vs-public-key check is
performed, and a verifier error (unparseable public key or signature
encoding) is accepted through the backward-compatibility fallback, so
acceptance does not imply a valid signature. -/
theorem process_handshake_acceptance_conditions
    (m : HandshakeManager) (hd : HandshakeData) (now coin : Nat)
    (hacc : hsAccepted (m.process_handshake hd now coin) = true) :
    hd.protocol_version = "dpq-chat-v2-kyber" ∧
    hd.kyber_exchange.timestamp ≤ now ∧ now - hd.kyber_exchange.timestamp ≤ 300 ∧
    hd.signature ≠ [] ∧
    DilithiumVerifier.verify
      (HandshakeManager.create_signature_data hd.peer_info hd.kyber_exchange)
      hd.signature hd.peer_info.public_key ≠ .ok false := by
  have hver : m.verify_handshake hd now = some (.ok ()) := by
    simp only [HandshakeManager.process_handshake] at hacc
    rcases hv : m.verify_handshake hd now with _ | ev
    · rw [hv] at hacc
      simp [hsAccepted] at hacc
    · rcases ev with e | u
      · rw [hv] at hacc
        simp [hsAccepted] at hacc
      · cases u
        rfl
  exact verify_handshake_ok_conditions m hd now hver

/-- C1 witness: the amended conditions hold at a concrete accepted
handshake (the fallback-accepted one). -/
theorem process_handshake_acceptance_conditions_witness :
    badHandshake.protocol_version = "dpq-chat-v2-kyber" ∧
    badHandshake.kyber_exchange.timestamp ≤ 1000 ∧
    1000 - badHandshake.kyber_exchange.timestamp ≤ 300 ∧
    badHandshake.signature ≠ [] ∧
    DilithiumVerifier.verify
      (HandshakeManager.create_signature_data badHandshake.peer_info badHandshake.kyber_exchange)
      badHandshake.signature badHandshake.peer_info.public_key ≠ .ok false :=
  process_handshake_acceptance_conditions bobManager badHandshake 1000 77 (by decide)

/-- C1 counterexample: `process_handshake` accepts a handshake whose claimed
fingerprint does not match its public key and whose signature is not a valid
Dilithium signature (the verifier errors on it, and the error is swallowed),
producing a session key — so acceptance does not require the fingerprint
binding or a verifiable signature, and no error is returned. -/
theorem process_handshake_accepts_invalid_handshake :
    hsAccepted (bobManager.process_handshake badHandshake 1000 77) = true ∧
    Identity.generate_fingerprint badHandshake.peer_info.public_key ≠
      badHandshake.peer_info.fingerprint ∧
    exceptIsOk (DilithiumVerifier.verify
      (HandshakeManager.create_signature_data badHandshake.peer_info badHandshake.kyber_exchange)
      badHandshake.signature badHandshake.peer_info.public_key) = false := by
  refine ⟨by decide, by decide, ?_⟩
  have hpk : dilithiumPublicKeyFromBytes badHandshake.peer_info.public_key = none := by decide
  simp [DilithiumVerifier.verify, hpk, exceptIsOk]

/-- Whichever path `process_handshake` accepts through, the session key it
returns is bound to the fingerprint claimed in the incoming handshake. -/
theorem acceptedSessionFingerprint_eq
    (m : HandshakeManager) (hd : HandshakeData) (now coin : Nat) (fp : String)
    (h : acceptedSessionFingerprint (m.process_handshake hd now coin) = some fp) :
    fp = hd.peer_info.fingerprint := by
  simp only [HandshakeManager.process_handshake] at h
  split at h
  · simp [acceptedSessionFingerprint] at h
  · simp [acceptedSessionFingerprint] at h
  · split at h
    · split at h
      · simp [acceptedSessionFingerprint] at h
      · split at h
        · simp [acceptedSessionFingerprint] at h
        · simp [acceptedSessionFingerprint, SessionKey.from_shared_secret] at h
          exact h.symm
    · split at h
      · simp [acceptedSessionFingerprint] at h
      · simp [acceptedSessionFingerprint, SessionKey.from_shared_secret] at h
        exact h.symm

/-- C2: after both sides complete a handshake — B's session key is indexed
by A's claimed fingerprint, A's by B's — every message A encrypts carries
`sender_fingerprint = session_key.peer_fingerprint()`, which is B's own
fingerprint, and B's session lookup under that fingerprint returns `none`:
the message is dropped as `NoSession` rather than delivered. -/
theorem sender_fingerprint_is_recipient_so_lookup_fails
    (mA mB : HandshakeManager) (hdA hdB : HandshakeData) (nowA nowB coinA coinB : Nat)
    (fpA fpB : String) (skA skB : SessionKey) (msg : PlainMessage) (seq : Nat)
    (nonce : List Nat)
    (hB : acceptedSessionFingerprint (mB.process_handshake hdA nowB coinB) = some fpA)
    (hA : acceptedSessionFingerprint (mA.process_handshake hdB nowA coinA) = some fpB)
    (hskB : skB.peer_fingerprint = fpA)
    (hskA : skA.peer_fingerprint = fpB)
    (hne : fpA ≠ fpB) :
    fpA = hdA.peer_info.fingerprint ∧ fpB = hdB.peer_info.fingerprint ∧
    (MessageCrypto.encrypt_message skA msg seq nonce).map EncryptedMessage.sender_fingerprint
      = .ok fpB ∧
    (SessionManager.new.add_session skB.peer_fingerprint skB).get_session fpB = none := by
  refine ⟨acceptedSessionFingerprint_eq _ _ _ _ _ hB,
    acceptedSessionFingerprint_eq _ _ _ _ _ hA, ?_, ?_⟩
  · simp [MessageCrypto.encrypt_message, SessionKey.encrypt, Except.map, hskA]
  · have hbeq : (fpB == fpA) = false := beq_false_of_ne (Ne.symm hne)
    simp [SessionManager.new, SessionManager.add_session, SessionManager.get_session,
      mapInsert, List.lookup, hskB, hbeq]

/-- C2 witness: the concrete alice/bob exchange — both handshakes accepted,
alice's outbound envelope carries `bob_fp`, and bob's session map (which
holds `alice_fp`) has no entry for it. -/
theorem sender_fingerprint_is_recipient_so_lookup_fails_witness :
    ("alice_fp" : String) = aliceHandshake.peer_info.fingerprint ∧
    ("bob_fp" : String) = bobHandshake.peer_info.fingerprint ∧
    (MessageCrypto.encrypt_message ⟨List.replicate 32 1, 1000, ("bob_fp")⟩
      ⟨[104, 105], [97], 3, .Text⟩ 1 (List.replicate 12 2)).map
        EncryptedMessage.sender_fingerprint = .ok ("bob_fp") ∧
    (SessionManager.new.add_session
      (⟨List.replicate 32 0, 1000, ("alice_fp")⟩ : SessionKey).peer_fingerprint
      ⟨List.replicate 32 0, 1000, ("alice_fp")⟩).get_session ("bob_fp") = none :=
  sender_fingerprint_is_recipient_so_lookup_fails aliceManager bobFpManager
    aliceHandshake bobHandshake 1000 1000 44 33 ("alice_fp") ("bob_fp")
    ⟨List.replicate 32 1, 1000, ("bob_fp")⟩ ⟨List.replicate 32 0, 1000, ("alice_fp")⟩
    ⟨[104, 105], [97], 3, .Text⟩ 1 (List.replicate 12 2)
    (by decide) (by decide) rfl rfl (by decide)

/-- C6 witness: the amended statement at the one-peer router — the TTL-1
message is forwarded to `P` with TTL 0, and a TTL-0 copy is dropped. -/
theorem ttl_one_forward_and_ttl_zero_drop_witness :
    (∃ fwd r',
      c6Router.process_message c6Msg ("S") 100 =
        (.ForwardAndDeliver (.ChatMessage ("m1") ("S") ("alice") ("hi") 1 [("L")])
          (.ChatMessage ("m1") ("S") ("alice") ("hi") 0 [("L")]) fwd, r')) ∧
    c6Router.process_message (.ChatMessage ("m1") ("S") ("alice") ("hi") 0 []) ("S") 100 =
      (.Drop, c6Router) :=
  ⟨ttl_one_forward_and_ttl_zero_drop.1 c6Router ("m1") ("S") ("alice") ("hi") [] ("S") 100
      (by decide) (by decide),
   ttl_one_forward_and_ttl_zero_drop.2 c6Router ("m1") ("S") ("alice") ("hi") [] ("S") 100⟩

end TerminalChat
